import Mathlib

/-!
# Verification of the wargame scenario-generation pipeline

Shallow embedding of `src/data/wargame.py` (class `WargameSimulationData`).

The pseudo-random source is embedded as a deterministic stream of unit
draws: a `RandState` holds a function `stream : ℕ → ℚ` producing the
successive unit samples (numpy's underlying uniform-[0,1) draws) together
with the index of the next draw.  Every sampling operation of the source
file reads the current unit draw and advances the index, so the whole
pipeline is a pure function of the stream and its arguments, exactly as
the seeded global numpy generator is a pure function of the seed and the
draw sequence.
-/

/-- State of the embedded randomness source: an infinite stream of unit
draws and the index of the next draw to consume. -/
structure RandState where
  stream : ℕ → ℚ
  idx : ℕ

/-- Consume one unit draw from the stream. -/
def RandState.unit (s : RandState) : ℚ × RandState :=
  (s.stream s.idx, ⟨s.stream, s.idx + 1⟩)

/-- A stream whose draws all lie in the unit interval `[0, 1]` — the
guarantee numpy's unit generator provides for every seed. -/
def UnitStream (f : ℕ → ℚ) : Prop := ∀ n, 0 ≤ f n ∧ f n ≤ 1

/-- `np.random.uniform(lo, hi)`: affine rescaling of one unit draw. -/
def uniform (lo hi : ℚ) (s : RandState) : ℚ × RandState :=
  let (u, s') := s.unit
  (lo + u * (hi - lo), s')

/-- `np.random.randint(lo, hi)`: integer obtained by flooring a rescaled
unit draw. -/
def randint (lo hi : ℤ) (s : RandState) : ℤ × RandState :=
  let (u, s') := s.unit
  (lo + ⌊u * ((hi - lo : ℤ) : ℚ)⌋, s')

/-- `np.random.choice(options)`: pick the element indexed by flooring a
rescaled unit draw, clamped into the valid index range. -/
def choice (options : List String) (s : RandState) : String × RandState :=
  let (u, s') := s.unit
  (options.getD (min (Int.toNat ⌊u * (options.length : ℚ)⌋) (options.length - 1)) "", s')

/-- Membership in a closed interval, used to state the declared `[lo, hi]`
bounds of each sampled metric. -/
def inRange (lo hi x : ℚ) : Prop := lo ≤ x ∧ x ≤ hi

instance (lo hi x : ℚ) : Decidable (inRange lo hi x) := by
  unfold inRange; infer_instance

/-- Modelled from the spec: the error taxonomy of §7 (`InvalidRange` for a
sampling bound violating `lo ≤ hi`, `InvalidArgument` for a negative
scenario count).  The randomness-source implementation itself is delegated
to an external library and is not under `src/`. -/
inductive SimError where
  | InvalidRange : SimError
  | InvalidArgument : SimError
deriving DecidableEq

/-- Modelled from the spec: the Randomness Source draw operation
`uniformReal(lo, hi)` of §4.1, which fails with `InvalidRange` when
`lo > hi` and otherwise performs the uniform-real draw.  The concrete
implementation (numpy) is not part of `src/`. -/
def uniformReal (lo hi : ℚ) (s : RandState) : Except SimError (ℚ × RandState) :=
  if hi < lo then .error .InvalidRange else .ok (uniform lo hi s)

/-- Modelled from the spec: the Randomness Source draw operation
`uniformInt(lo, hi)` of §4.1, failing with `InvalidRange` when `lo > hi`.
The concrete implementation (numpy) is not part of `src/`. -/
def uniformInt (lo hi : ℤ) (s : RandState) : Except SimError (ℤ × RandState) :=
  if hi < lo then .error .InvalidRange else .ok (randint lo hi s)

/-- One step of a 32-bit linear congruential generator (Numerical Recipes
constants). -/
def lcg (x : ℕ) : ℕ := (1664525 * x + 1013904223) % 4294967296

/-- Modelled from the spec: `seed(value)` of §4.1 "initializes a
deterministic stream such that any sequence of subsequent draws is a pure
function of `value` and the draw sequence".  The seeded generator of the
source (`np.random.seed`) lives in an external library, so the stream is
modelled by a concrete classical linear congruential generator producing
unit draws in `[0, 1)`. -/
def seedStream (seed : ℕ) : ℕ → ℚ :=
  fun n => ((lcg^[n + 1] (seed % 4294967296) : ℕ) : ℚ) / 4294967296

/-- Effectiveness metrics of one conventional weapon category
(`tanks`, `artillery`, `fighter_jets` all carry these three metrics). -/
structure ConvWeapon where
  accuracy : ℚ
  kill_probability : ℚ
  operational_range_km : ℚ
deriving DecidableEq

/-- Metrics of the `cyber_attacks` category. -/
structure CyberAttacks where
  infrastructure_disruption_probability : ℚ
  communication_system_compromise : ℚ
  military_network_penetration : ℚ
deriving DecidableEq

/-- Metrics of the `special_forces` category. -/
structure SpecialForces where
  mission_success_probability : ℚ
  strategic_target_elimination : ℚ
deriving DecidableEq

/-- The weapon-effectiveness profile returned by
`generate_weapon_effectiveness`. -/
structure WeaponEffectiveness where
  tanks : ConvWeapon
  artillery : ConvWeapon
  fighter_jets : ConvWeapon
  cyber_attacks : CyberAttacks
  special_forces : SpecialForces
deriving DecidableEq

/-- Capability metrics of one nation, as produced by
`generate_national_capabilities`. -/
structure NationProfile where
  military_personnel : ℤ
  military_budget_billion_usd : ℚ
  technological_readiness : ℚ
  cyber_defense_capability : ℚ
  supply_chain_resilience : ℚ
deriving DecidableEq

/-- The national-capability profile (`Nation_A` and `Nation_B`). -/
structure NationalCapabilities where
  Nation_A : NationProfile
  Nation_B : NationProfile
deriving DecidableEq

/-- One scenario record: the dict literal built in each iteration of
`generate_conflict_scenarios`, fields in source order. -/
structure ScenarioRecord where
  cyber_conflict_probability : ℚ
  conventional_war_probability : ℚ
  limited_engagement_probability : ℚ
  initial_aggressor : String
  conflict_duration_days : ℚ
  tank_effectiveness_A : ℚ
  artillery_effectiveness_A : ℚ
  jet_effectiveness_A : ℚ
  tank_effectiveness_B : ℚ
  artillery_effectiveness_B : ℚ
  jet_effectiveness_B : ℚ
  cyber_disruption_potential_A : ℚ
  cyber_disruption_potential_B : ℚ
  estimated_military_casualties_A : ℚ
  estimated_military_casualties_B : ℚ
  estimated_civilian_casualties : ℚ
  economic_damage_billion_usd : ℚ
deriving DecidableEq

/-- A scalar value of a scenario field (the Python dict is heterogeneous:
reals plus one categorical string). -/
inductive FieldValue where
  | real : ℚ → FieldValue
  | str : String → FieldValue
deriving DecidableEq

/-- The record viewed as the key/value dictionary the source builds,
keys in the order of the dict literal. -/
def ScenarioRecord.toDict (r : ScenarioRecord) : List (String × FieldValue) :=
  [("cyber_conflict_probability", .real r.cyber_conflict_probability),
   ("conventional_war_probability", .real r.conventional_war_probability),
   ("limited_engagement_probability", .real r.limited_engagement_probability),
   ("initial_aggressor", .str r.initial_aggressor),
   ("conflict_duration_days", .real r.conflict_duration_days),
   ("tank_effectiveness_A", .real r.tank_effectiveness_A),
   ("artillery_effectiveness_A", .real r.artillery_effectiveness_A),
   ("jet_effectiveness_A", .real r.jet_effectiveness_A),
   ("tank_effectiveness_B", .real r.tank_effectiveness_B),
   ("artillery_effectiveness_B", .real r.artillery_effectiveness_B),
   ("jet_effectiveness_B", .real r.jet_effectiveness_B),
   ("cyber_disruption_potential_A", .real r.cyber_disruption_potential_A),
   ("cyber_disruption_potential_B", .real r.cyber_disruption_potential_B),
   ("estimated_military_casualties_A", .real r.estimated_military_casualties_A),
   ("estimated_military_casualties_B", .real r.estimated_military_casualties_B),
   ("estimated_civilian_casualties", .real r.estimated_civilian_casualties),
   ("economic_damage_billion_usd", .real r.economic_damage_billion_usd)]

/-- The fixed field schema of a scenario record (the keys of the dict
literal in source order). -/
def scenarioFieldNames : List String :=
  ["cyber_conflict_probability",
   "conventional_war_probability",
   "limited_engagement_probability",
   "initial_aggressor",
   "conflict_duration_days",
   "tank_effectiveness_A",
   "artillery_effectiveness_A",
   "jet_effectiveness_A",
   "tank_effectiveness_B",
   "artillery_effectiveness_B",
   "jet_effectiveness_B",
   "cyber_disruption_potential_A",
   "cyber_disruption_potential_B",
   "estimated_military_casualties_A",
   "estimated_military_casualties_B",
   "estimated_civilian_casualties",
   "economic_damage_billion_usd"]

/-- `generate_weapon_effectiveness`: fourteen uniform draws in the order
of the source dict literal. -/
def generate_weapon_effectiveness (s : RandState) : WeaponEffectiveness × RandState :=
  let (tacc, s) := uniform 0.6 0.85 s
  let (tkill, s) := uniform 0.4 0.7 s
  let (trange, s) := uniform 30 60 s
  let (aacc, s) := uniform 0.5 0.75 s
  let (akill, s) := uniform 0.3 0.6 s
  let (arange, s) := uniform 20 50 s
  let (jacc, s) := uniform 0.7 0.9 s
  let (jkill, s) := uniform 0.5 0.8 s
  let (jrange, s) := uniform 1500 3000 s
  let (cinfra, s) := uniform 0.4 0.7 s
  let (ccomm, s) := uniform 0.3 0.6 s
  let (cpen, s) := uniform 0.2 0.5 s
  let (smiss, s) := uniform 0.4 0.7 s
  let (selim, s) := uniform 0.3 0.6 s
  (⟨⟨tacc, tkill, trange⟩, ⟨aacc, akill, arange⟩, ⟨jacc, jkill, jrange⟩,
    ⟨cinfra, ccomm, cpen⟩, ⟨smiss, selim⟩⟩, s)

/-- `generate_national_capabilities`: ten draws in the order of the source
dict literal (one integer draw and four real draws per nation). -/
def generate_national_capabilities (s : RandState) : NationalCapabilities × RandState :=
  let (apers, s) := randint 500000 1200000 s
  let (abudget, s) := uniform 50 250 s
  let (atech, s) := uniform 0.6 0.9 s
  let (acyber, s) := uniform 0.4 0.8 s
  let (asupply, s) := uniform 0.5 0.9 s
  let (bpers, s) := randint 400000 1000000 s
  let (bbudget, s) := uniform 40 200 s
  let (btech, s) := uniform 0.5 0.85 s
  let (bcyber, s) := uniform 0.3 0.7 s
  let (bsupply, s) := uniform 0.4 0.8 s
  (⟨⟨apers, abudget, atech, acyber, asupply⟩,
    ⟨bpers, bbudget, btech, bcyber, bsupply⟩⟩, s)

/-- The loop body of `generate_conflict_scenarios`: nine fresh draws plus
copies of the shared weapon-effectiveness snapshot, fields in the order of
the source dict literal. -/
def generate_scenario (we : WeaponEffectiveness) (s : RandState) : ScenarioRecord × RandState :=
  let (ccp, s) := uniform 0.2 0.5 s
  let (cwp, s) := uniform 0.3 0.6 s
  let (lep, s) := uniform 0.1 0.4 s
  let (aggr, s) := choice ["Nation_A", "Nation_B"] s
  let (dur, s) := uniform 30 180 s
  let (mcA, s) := uniform 5000 100000 s
  let (mcB, s) := uniform 5000 100000 s
  let (ccas, s) := uniform 10000 250000 s
  let (edmg, s) := uniform 50 500 s
  (⟨ccp, cwp, lep, aggr, dur,
    we.tanks.kill_probability, we.artillery.kill_probability,
    we.fighter_jets.kill_probability,
    we.tanks.kill_probability, we.artillery.kill_probability,
    we.fighter_jets.kill_probability,
    we.cyber_attacks.infrastructure_disruption_probability,
    we.cyber_attacks.infrastructure_disruption_probability,
    mcA, mcB, ccas, edmg⟩, s)

/-- The `for _ in range(...)` accumulation loop of
`generate_conflict_scenarios`: records are appended in generation order. -/
def genRecords (we : WeaponEffectiveness) (s : RandState) : ℕ → List ScenarioRecord × RandState
  | 0 => ([], s)
  | n + 1 =>
    let (r, s') := generate_scenario we s
    let (rs, s'') := genRecords we s' n
    (r :: rs, s'')

/-- `generate_conflict_scenarios`: draw the weapon snapshot once, draw the
(unused) capability snapshot once, then loop.  The count is a Python
integer; `range(n)` of a non-positive `n` iterates zero times. -/
def generate_conflict_scenarios (s : RandState) (num_scenarios : ℤ) :
    List ScenarioRecord × RandState :=
  let (weapon_effectiveness, s1) := generate_weapon_effectiveness s
  let (_national_capabilities, s2) := generate_national_capabilities s1
  genRecords weapon_effectiveness s2 num_scenarios.toNat

/-- The full pipeline: `WargameSimulationData(seed)` (which seeds the
stream) followed by `generate_conflict_scenarios(count)`; returns the
table. -/
def runSimulation (seed : ℕ) (count : ℤ) : List ScenarioRecord :=
  (generate_conflict_scenarios ⟨seedStream seed, 0⟩ count).fst

/-- The state transformer of one loop iteration. -/
def scenStep (we : WeaponEffectiveness) (s : RandState) : RandState :=
  (generate_scenario we s).snd

/-- The all-halves stream, a convenient concrete `UnitStream`. -/
def halfStream : ℕ → ℚ := fun _ => 1/2

/-- The all-quarters stream, another concrete `UnitStream`. -/
def quarterStream : ℕ → ℚ := fun _ => 1/4

/-- A stream that agrees with `halfStream` everywhere except on the draws
consumed by the capability generator (indices 14–23 of a run started at
index 0). -/
def streamG : ℕ → ℚ := fun i => if 14 ≤ i ∧ i < 24 then 1/3 else 1/2

/-- The weapon snapshot of the all-halves run started at index 0. -/
def sampleWE : WeaponEffectiveness := (generate_weapon_effectiveness ⟨halfStream, 0⟩).fst

/-- The record generated in the first loop iteration of the all-halves run
(the loop starts at index 24, after the two snapshot generators). -/
def sampleRecord : ScenarioRecord := (generate_scenario sampleWE ⟨halfStream, 24⟩).fst

/-- The weapon snapshot of the all-quarters run started at index 0. -/
def quarterWE : WeaponEffectiveness := (generate_weapon_effectiveness ⟨quarterStream, 0⟩).fst

/-- The record generated in the first loop iteration of the all-quarters
run. -/
def quarterRecord : ScenarioRecord := (generate_scenario quarterWE ⟨quarterStream, 24⟩).fst

section EvalLemmas

/-- `uniform` evaluated on an explicit state. -/
theorem uniform_eval (lo hi : ℚ) (f : ℕ → ℚ) (i : ℕ) :
    uniform lo hi ⟨f, i⟩ = (lo + f i * (hi - lo), ⟨f, i + 1⟩) := rfl

/-- The weapon generator reads the fourteen draws `f i, …, f (i+13)`. -/
theorem gwe_fst_eval (f : ℕ → ℚ) (i : ℕ) :
    (generate_weapon_effectiveness ⟨f, i⟩).fst =
      ⟨⟨0.6 + f i * (0.85 - 0.6), 0.4 + f (i+1) * (0.7 - 0.4), 30 + f (i+2) * (60 - 30)⟩,
       ⟨0.5 + f (i+3) * (0.75 - 0.5), 0.3 + f (i+4) * (0.6 - 0.3), 20 + f (i+5) * (50 - 20)⟩,
       ⟨0.7 + f (i+6) * (0.9 - 0.7), 0.5 + f (i+7) * (0.8 - 0.5),
        1500 + f (i+8) * (3000 - 1500)⟩,
       ⟨0.4 + f (i+9) * (0.7 - 0.4), 0.3 + f (i+10) * (0.6 - 0.3),
        0.2 + f (i+11) * (0.5 - 0.2)⟩,
       ⟨0.4 + f (i+12) * (0.7 - 0.4), 0.3 + f (i+13) * (0.6 - 0.3)⟩⟩ := rfl

/-- The weapon generator advances the state by fourteen draws. -/
theorem gwe_snd_eval (f : ℕ → ℚ) (i : ℕ) :
    (generate_weapon_effectiveness ⟨f, i⟩).snd = ⟨f, i + 14⟩ := rfl

/-- The capability generator advances the state by ten draws. -/
theorem gnc_snd_eval (f : ℕ → ℚ) (i : ℕ) :
    (generate_national_capabilities ⟨f, i⟩).snd = ⟨f, i + 10⟩ := rfl

/-- The loop body reads the nine draws `f i, …, f (i+8)`. -/
theorem generate_scenario_fst_eval (we : WeaponEffectiveness) (f : ℕ → ℚ) (i : ℕ) :
    (generate_scenario we ⟨f, i⟩).fst =
      ⟨0.2 + f i * (0.5 - 0.2), 0.3 + f (i+1) * (0.6 - 0.3), 0.1 + f (i+2) * (0.4 - 0.1),
       (choice ["Nation_A", "Nation_B"] ⟨f, i+3⟩).fst,
       30 + f (i+4) * (180 - 30),
       we.tanks.kill_probability, we.artillery.kill_probability,
       we.fighter_jets.kill_probability,
       we.tanks.kill_probability, we.artillery.kill_probability,
       we.fighter_jets.kill_probability,
       we.cyber_attacks.infrastructure_disruption_probability,
       we.cyber_attacks.infrastructure_disruption_probability,
       5000 + f (i+5) * (100000 - 5000), 5000 + f (i+6) * (100000 - 5000),
       10000 + f (i+7) * (250000 - 10000), 50 + f (i+8) * (500 - 50)⟩ := rfl

/-- The loop body advances the state by nine draws. -/
theorem generate_scenario_snd_eval (we : WeaponEffectiveness) (f : ℕ → ℚ) (i : ℕ) :
    (generate_scenario we ⟨f, i⟩).snd = ⟨f, i + 9⟩ := rfl

/-- One unfolding of the accumulation loop. -/
theorem genRecords_succ_fst (we : WeaponEffectiveness) (s : RandState) (n : ℕ) :
    (genRecords we s (n + 1)).fst =
      (generate_scenario we s).fst :: (genRecords we (generate_scenario we s).snd n).fst := rfl

/-- `generate_conflict_scenarios` in terms of its three stages. -/
theorem gcs_def (s : RandState) (n : ℤ) :
    generate_conflict_scenarios s n =
      genRecords (generate_weapon_effectiveness s).fst
        (generate_national_capabilities (generate_weapon_effectiveness s).snd).snd
        n.toNat := rfl

end EvalLemmas

section Helpers

/-- An affine rescaling of a unit draw stays in the target interval. -/
theorem affine_mem {u lo hi : ℚ} (h0 : 0 ≤ u) (h1 : u ≤ 1) (hlh : lo ≤ hi) :
    inRange lo hi (lo + u * (hi - lo)) := by
  constructor
  · nlinarith
  · nlinarith

/-- The two-element `choice` of the source always returns one of its two
options, for every state. -/
theorem choice_pair_cases (s : RandState) :
    (choice ["Nation_A", "Nation_B"] s).fst = "Nation_A" ∨
    (choice ["Nation_A", "Nation_B"] s).fst = "Nation_B" := by
  have hle : min (Int.toNat ⌊s.stream s.idx * ((["Nation_A", "Nation_B"] : List String).length : ℚ)⌋)
      ((["Nation_A", "Nation_B"] : List String).length - 1) ≤ 1 := by
    simp [List.length]
  set k := min (Int.toNat ⌊s.stream s.idx * ((["Nation_A", "Nation_B"] : List String).length : ℚ)⌋)
      ((["Nation_A", "Nation_B"] : List String).length - 1) with hk
  have : (choice ["Nation_A", "Nation_B"] s).fst = (["Nation_A", "Nation_B"] : List String).getD k "" := rfl
  rw [this]
  interval_cases k
  · left; rfl
  · right; rfl

/-- The `choice` result depends only on the unit draw it consumes. -/
theorem choice_fst_congr (opts : List String) (s t : RandState)
    (h : s.stream s.idx = t.stream t.idx) :
    (choice opts s).fst = (choice opts t).fst := by
  show opts.getD (min (Int.toNat ⌊s.stream s.idx * (opts.length : ℚ)⌋) (opts.length - 1)) "" =
    opts.getD (min (Int.toNat ⌊t.stream t.idx * (opts.length : ℚ)⌋) (opts.length - 1)) ""
  rw [h]

/-- Every record of the accumulation loop is produced by the loop body at
some index of the unchanged stream. -/
theorem mem_genRecords (we : WeaponEffectiveness) (f : ℕ → ℚ) (i : ℕ) (n : ℕ)
    (r : ScenarioRecord) (hr : r ∈ (genRecords we ⟨f, i⟩ n).fst) :
    ∃ j, r = (generate_scenario we ⟨f, j⟩).fst := by
  induction n generalizing i with
  | zero => simp [genRecords] at hr
  | succ n ih =>
    rw [genRecords_succ_fst] at hr
    rcases List.mem_cons.mp hr with h | h
    · exact ⟨i, h⟩
    · rw [generate_scenario_snd_eval] at h
      exact ih (i + 9) h

/-- Every record of a generated table is produced by the loop body from
the shared weapon snapshot at some index of the run's stream. -/
theorem mem_generate_conflict_scenarios (f : ℕ → ℚ) (i : ℕ) (n : ℤ)
    (r : ScenarioRecord) (hr : r ∈ (generate_conflict_scenarios ⟨f, i⟩ n).fst) :
    ∃ j, r = (generate_scenario (generate_weapon_effectiveness ⟨f, i⟩).fst ⟨f, j⟩).fst := by
  rw [gcs_def, gwe_snd_eval, gnc_snd_eval] at hr
  exact mem_genRecords _ f (i + 14 + 10) n.toNat r hr

/-- Closed form of the loop: the table is the list of loop-body outputs at
the iterated states, in generation order. -/
theorem genRecords_fst_eq_map (we : WeaponEffectiveness) (s : RandState) (n : ℕ) :
    (genRecords we s n).fst =
      (List.range n).map (fun k => (generate_scenario we ((scenStep we)^[k] s)).fst) := by
  induction n generalizing s with
  | zero => rfl
  | succ n ih =>
    rw [genRecords_succ_fst, List.range_succ_eq_map, List.map_cons]
    refine congrArg₂ List.cons rfl ?_
    rw [ih ((generate_scenario we s).snd), List.map_map]
    apply List.map_congr_left
    intro k _
    simp only [Function.comp_apply]
    rw [Function.iterate_succ_apply]
    rfl

/-- The loop produces exactly `n` records. -/
theorem genRecords_fst_length (we : WeaponEffectiveness) (s : RandState) (n : ℕ) :
    (genRecords we s n).fst.length = n := by
  rw [genRecords_fst_eq_map, List.length_map, List.length_range]

end Helpers

section CongrLemmas

/-- The weapon snapshot depends only on the fourteen draws it consumes. -/
theorem gwe_fst_congr (f g : ℕ → ℚ) (i : ℕ)
    (h : ∀ k, k < 14 → f (i + k) = g (i + k)) :
    (generate_weapon_effectiveness ⟨f, i⟩).fst = (generate_weapon_effectiveness ⟨g, i⟩).fst := by
  have h0 : f i = g i := h 0 (by norm_num)
  have h1 : f (i+1) = g (i+1) := h 1 (by norm_num)
  have h2 : f (i+2) = g (i+2) := h 2 (by norm_num)
  have h3 : f (i+3) = g (i+3) := h 3 (by norm_num)
  have h4 : f (i+4) = g (i+4) := h 4 (by norm_num)
  have h5 : f (i+5) = g (i+5) := h 5 (by norm_num)
  have h6 : f (i+6) = g (i+6) := h 6 (by norm_num)
  have h7 : f (i+7) = g (i+7) := h 7 (by norm_num)
  have h8 : f (i+8) = g (i+8) := h 8 (by norm_num)
  have h9 : f (i+9) = g (i+9) := h 9 (by norm_num)
  have h10 : f (i+10) = g (i+10) := h 10 (by norm_num)
  have h11 : f (i+11) = g (i+11) := h 11 (by norm_num)
  have h12 : f (i+12) = g (i+12) := h 12 (by norm_num)
  have h13 : f (i+13) = g (i+13) := h 13 (by norm_num)
  rw [gwe_fst_eval, gwe_fst_eval, h0, h1, h2, h3, h4, h5, h6, h7, h8, h9, h10,
    h11, h12, h13]

/-- One loop-body record depends only on the shared snapshot and the nine
draws it consumes. -/
theorem generate_scenario_fst_congr (we : WeaponEffectiveness) (f g : ℕ → ℚ) (i : ℕ)
    (h : ∀ k, k < 9 → f (i + k) = g (i + k)) :
    (generate_scenario we ⟨f, i⟩).fst = (generate_scenario we ⟨g, i⟩).fst := by
  have h0 : f i = g i := h 0 (by norm_num)
  have h1 : f (i+1) = g (i+1) := h 1 (by norm_num)
  have h2 : f (i+2) = g (i+2) := h 2 (by norm_num)
  have hch : (choice ["Nation_A", "Nation_B"] ⟨f, i+3⟩).fst =
      (choice ["Nation_A", "Nation_B"] ⟨g, i+3⟩).fst :=
    choice_fst_congr _ _ _ (h 3 (by norm_num))
  have h4 : f (i+4) = g (i+4) := h 4 (by norm_num)
  have h5 : f (i+5) = g (i+5) := h 5 (by norm_num)
  have h6 : f (i+6) = g (i+6) := h 6 (by norm_num)
  have h7 : f (i+7) = g (i+7) := h 7 (by norm_num)
  have h8 : f (i+8) = g (i+8) := h 8 (by norm_num)
  rw [generate_scenario_fst_eval, generate_scenario_fst_eval, h0, h1, h2, hch,
    h4, h5, h6, h7, h8]

/-- The table produced by the loop depends only on the shared snapshot and
the draws from the starting index onwards. -/
theorem genRecords_fst_congr (we : WeaponEffectiveness) (f g : ℕ → ℚ) (n j : ℕ)
    (h : ∀ i, j ≤ i → f i = g i) :
    (genRecords we ⟨f, j⟩ n).fst = (genRecords we ⟨g, j⟩ n).fst := by
  induction n generalizing j with
  | zero => rfl
  | succ n ih =>
    rw [genRecords_succ_fst, genRecords_succ_fst,
      generate_scenario_snd_eval, generate_scenario_snd_eval]
    refine congrArg₂ List.cons ?_ ?_
    · exact generate_scenario_fst_congr we f g j (fun k hk => h (j + k) (by omega))
    · exact ih (j + 9) (fun i hi => h i (by omega))

end CongrLemmas

section Claims

/-- Claim C1 (corrected), counterexample to the original statement: at the
negative count `-1` the generator does not fail — it returns the very same
successful empty-table result as the valid count `0`. -/
theorem claim_C1_counterexample :
    (generate_conflict_scenarios ⟨halfStream, 0⟩ (-1)).fst = [] ∧
    generate_conflict_scenarios ⟨halfStream, 0⟩ (-1) =
      generate_conflict_scenarios ⟨halfStream, 0⟩ 0 := ⟨rfl, rfl⟩

/-- Claim C1 (amended): for every non-positive count (in particular every
negative count) `generate_conflict_scenarios` succeeds and returns the
empty table, identical to the result at count `0`; no error is raised. -/
theorem claim_C1 (s : RandState) (n : ℤ) (h : n ≤ 0) :
    generate_conflict_scenarios s n = generate_conflict_scenarios s 0 ∧
    (generate_conflict_scenarios s n).fst = [] := by
  rw [gcs_def, gcs_def, Int.toNat_of_nonpos h]
  exact ⟨rfl, rfl⟩

/-- Witness for C1 at the concrete count `-2`. -/
theorem claim_C1_witness :
    (-2 : ℤ) ≤ 0 ∧
    (generate_conflict_scenarios ⟨halfStream, 0⟩ (-2) =
        generate_conflict_scenarios ⟨halfStream, 0⟩ 0 ∧
      (generate_conflict_scenarios ⟨halfStream, 0⟩ (-2)).fst = []) :=
  ⟨by norm_num, claim_C1 ⟨halfStream, 0⟩ (-2) (by norm_num)⟩

/-- Claim C2: for every non-negative count `n` the generator returns a
table of exactly `n` records, and the table is, in order, the list of
loop-body outputs of iterations `0, 1, …, n-1` (insertion order =
generation order). -/
theorem claim_C2 (s : RandState) (n : ℤ) (h : 0 ≤ n) :
    ((generate_conflict_scenarios s n).fst.length : ℤ) = n ∧
    (generate_conflict_scenarios s n).fst =
      (List.range n.toNat).map (fun k =>
        (generate_scenario (generate_weapon_effectiveness s).fst
          ((scenStep (generate_weapon_effectiveness s).fst)^[k]
            (generate_national_capabilities
              (generate_weapon_effectiveness s).snd).snd)).fst) := by
  constructor
  · rw [gcs_def, genRecords_fst_length]
    exact_mod_cast congrArg (Int.ofNat) (rfl : n.toNat = n.toNat) |>.trans
      (by exact_mod_cast Int.toNat_of_nonneg h)
  · rw [gcs_def, genRecords_fst_eq_map]

/-- Witness for C2 at the concrete count `2` of the all-halves run. -/
theorem claim_C2_witness :
    (0 : ℤ) ≤ 2 ∧
    (((generate_conflict_scenarios ⟨halfStream, 0⟩ 2).fst.length : ℤ) = 2 ∧
      (generate_conflict_scenarios ⟨halfStream, 0⟩ 2).fst =
        (List.range (2 : ℤ).toNat).map (fun k =>
          (generate_scenario (generate_weapon_effectiveness ⟨halfStream, 0⟩).fst
            ((scenStep (generate_weapon_effectiveness ⟨halfStream, 0⟩).fst)^[k]
              (generate_national_capabilities
                (generate_weapon_effectiveness ⟨halfStream, 0⟩).snd).snd)).fst)) :=
  ⟨by norm_num, claim_C2 ⟨halfStream, 0⟩ 2 (by norm_num)⟩

end Claims

section MoreClaims

/-- Claim C3: in every generated table the A-side and B-side effectiveness
fields coincide, equal the corresponding metric of the single shared
weapon snapshot, and agree across all records of the table (tank and
artillery and jet effectiveness copy the snapshot kill probabilities, the
cyber-disruption fields copy the snapshot infrastructure-disruption
probability). -/
theorem claim_C3 (f : ℕ → ℚ) (i : ℕ) (n : ℤ) (r1 r2 : ScenarioRecord)
    (h1 : r1 ∈ (generate_conflict_scenarios ⟨f, i⟩ n).fst)
    (h2 : r2 ∈ (generate_conflict_scenarios ⟨f, i⟩ n).fst) :
    (r1.tank_effectiveness_A = r1.tank_effectiveness_B ∧
      r1.tank_effectiveness_A =
        (generate_weapon_effectiveness ⟨f, i⟩).fst.tanks.kill_probability ∧
      r1.tank_effectiveness_A = r2.tank_effectiveness_A) ∧
    (r1.artillery_effectiveness_A = r1.artillery_effectiveness_B ∧
      r1.artillery_effectiveness_A =
        (generate_weapon_effectiveness ⟨f, i⟩).fst.artillery.kill_probability ∧
      r1.artillery_effectiveness_A = r2.artillery_effectiveness_A) ∧
    (r1.jet_effectiveness_A = r1.jet_effectiveness_B ∧
      r1.jet_effectiveness_A =
        (generate_weapon_effectiveness ⟨f, i⟩).fst.fighter_jets.kill_probability ∧
      r1.jet_effectiveness_A = r2.jet_effectiveness_A) ∧
    (r1.cyber_disruption_potential_A = r1.cyber_disruption_potential_B ∧
      r1.cyber_disruption_potential_A =
        (generate_weapon_effectiveness
          ⟨f, i⟩).fst.cyber_attacks.infrastructure_disruption_probability ∧
      r1.cyber_disruption_potential_A = r2.cyber_disruption_potential_A) := by
  obtain ⟨j1, e1⟩ := mem_generate_conflict_scenarios f i n r1 h1
  obtain ⟨j2, e2⟩ := mem_generate_conflict_scenarios f i n r2 h2
  subst e1
  subst e2
  exact ⟨⟨rfl, rfl, rfl⟩, ⟨rfl, rfl, rfl⟩, ⟨rfl, rfl, rfl⟩, ⟨rfl, rfl, rfl⟩⟩

/-- Witness for C3: the single record of the all-halves run at count 1. -/
theorem claim_C3_witness :
    sampleRecord ∈ (generate_conflict_scenarios ⟨halfStream, 0⟩ 1).fst ∧
    (sampleRecord.tank_effectiveness_A = sampleRecord.tank_effectiveness_B ∧
      sampleRecord.tank_effectiveness_A =
        (generate_weapon_effectiveness ⟨halfStream, 0⟩).fst.tanks.kill_probability ∧
      sampleRecord.tank_effectiveness_A = sampleRecord.tank_effectiveness_A) ∧
    (sampleRecord.artillery_effectiveness_A = sampleRecord.artillery_effectiveness_B ∧
      sampleRecord.artillery_effectiveness_A =
        (generate_weapon_effectiveness ⟨halfStream, 0⟩).fst.artillery.kill_probability ∧
      sampleRecord.artillery_effectiveness_A = sampleRecord.artillery_effectiveness_A) ∧
    (sampleRecord.jet_effectiveness_A = sampleRecord.jet_effectiveness_B ∧
      sampleRecord.jet_effectiveness_A =
        (generate_weapon_effectiveness ⟨halfStream, 0⟩).fst.fighter_jets.kill_probability ∧
      sampleRecord.jet_effectiveness_A = sampleRecord.jet_effectiveness_A) ∧
    (sampleRecord.cyber_disruption_potential_A = sampleRecord.cyber_disruption_potential_B ∧
      sampleRecord.cyber_disruption_potential_A =
        (generate_weapon_effectiveness
          ⟨halfStream, 0⟩).fst.cyber_attacks.infrastructure_disruption_probability ∧
      sampleRecord.cyber_disruption_potential_A = sampleRecord.cyber_disruption_potential_A) := by
  have hm : sampleRecord ∈ (generate_conflict_scenarios ⟨halfStream, 0⟩ 1).fst := by
    show sampleRecord ∈ [sampleRecord]
    exact List.mem_singleton.mpr rfl
  exact ⟨hm, claim_C3 halfStream 0 1 sampleRecord sampleRecord hm hm⟩

/-- Claim C4: for every stream of unit draws, every metric produced by
`generate_weapon_effectiveness` lies in its declared closed interval. -/
theorem claim_C4 (f : ℕ → ℚ) (i : ℕ) (h : UnitStream f) :
    inRange 0.6 0.85 (generate_weapon_effectiveness ⟨f, i⟩).fst.tanks.accuracy ∧
    inRange 0.4 0.7 (generate_weapon_effectiveness ⟨f, i⟩).fst.tanks.kill_probability ∧
    inRange 30 60 (generate_weapon_effectiveness ⟨f, i⟩).fst.tanks.operational_range_km ∧
    inRange 0.5 0.75 (generate_weapon_effectiveness ⟨f, i⟩).fst.artillery.accuracy ∧
    inRange 0.3 0.6 (generate_weapon_effectiveness ⟨f, i⟩).fst.artillery.kill_probability ∧
    inRange 20 50 (generate_weapon_effectiveness ⟨f, i⟩).fst.artillery.operational_range_km ∧
    inRange 0.7 0.9 (generate_weapon_effectiveness ⟨f, i⟩).fst.fighter_jets.accuracy ∧
    inRange 0.5 0.8 (generate_weapon_effectiveness ⟨f, i⟩).fst.fighter_jets.kill_probability ∧
    inRange 1500 3000
      (generate_weapon_effectiveness ⟨f, i⟩).fst.fighter_jets.operational_range_km ∧
    inRange 0.4 0.7
      (generate_weapon_effectiveness
        ⟨f, i⟩).fst.cyber_attacks.infrastructure_disruption_probability ∧
    inRange 0.3 0.6
      (generate_weapon_effectiveness ⟨f, i⟩).fst.cyber_attacks.communication_system_compromise ∧
    inRange 0.2 0.5
      (generate_weapon_effectiveness ⟨f, i⟩).fst.cyber_attacks.military_network_penetration ∧
    inRange 0.4 0.7
      (generate_weapon_effectiveness ⟨f, i⟩).fst.special_forces.mission_success_probability ∧
    inRange 0.3 0.6
      (generate_weapon_effectiveness ⟨f, i⟩).fst.special_forces.strategic_target_elimination := by
  refine ⟨?_, ?_, ?_, ?_, ?_, ?_, ?_, ?_, ?_, ?_, ?_, ?_, ?_, ?_⟩
  · show inRange 0.6 0.85 (0.6 + f i * (0.85 - 0.6))
    exact affine_mem (h i).1 (h i).2 (by norm_num)
  · show inRange 0.4 0.7 (0.4 + f (i+1) * (0.7 - 0.4))
    exact affine_mem (h (i+1)).1 (h (i+1)).2 (by norm_num)
  · show inRange 30 60 (30 + f (i+2) * (60 - 30))
    exact affine_mem (h (i+2)).1 (h (i+2)).2 (by norm_num)
  · show inRange 0.5 0.75 (0.5 + f (i+3) * (0.75 - 0.5))
    exact affine_mem (h (i+3)).1 (h (i+3)).2 (by norm_num)
  · show inRange 0.3 0.6 (0.3 + f (i+4) * (0.6 - 0.3))
    exact affine_mem (h (i+4)).1 (h (i+4)).2 (by norm_num)
  · show inRange 20 50 (20 + f (i+5) * (50 - 20))
    exact affine_mem (h (i+5)).1 (h (i+5)).2 (by norm_num)
  · show inRange 0.7 0.9 (0.7 + f (i+6) * (0.9 - 0.7))
    exact affine_mem (h (i+6)).1 (h (i+6)).2 (by norm_num)
  · show inRange 0.5 0.8 (0.5 + f (i+7) * (0.8 - 0.5))
    exact affine_mem (h (i+7)).1 (h (i+7)).2 (by norm_num)
  · show inRange 1500 3000 (1500 + f (i+8) * (3000 - 1500))
    exact affine_mem (h (i+8)).1 (h (i+8)).2 (by norm_num)
  · show inRange 0.4 0.7 (0.4 + f (i+9) * (0.7 - 0.4))
    exact affine_mem (h (i+9)).1 (h (i+9)).2 (by norm_num)
  · show inRange 0.3 0.6 (0.3 + f (i+10) * (0.6 - 0.3))
    exact affine_mem (h (i+10)).1 (h (i+10)).2 (by norm_num)
  · show inRange 0.2 0.5 (0.2 + f (i+11) * (0.5 - 0.2))
    exact affine_mem (h (i+11)).1 (h (i+11)).2 (by norm_num)
  · show inRange 0.4 0.7 (0.4 + f (i+12) * (0.7 - 0.4))
    exact affine_mem (h (i+12)).1 (h (i+12)).2 (by norm_num)
  · show inRange 0.3 0.6 (0.3 + f (i+13) * (0.6 - 0.3))
    exact affine_mem (h (i+13)).1 (h (i+13)).2 (by norm_num)

/-- Witness for C4 on the all-halves stream. -/
theorem claim_C4_witness :
    UnitStream halfStream ∧
    (inRange 0.6 0.85 (generate_weapon_effectiveness ⟨halfStream, 0⟩).fst.tanks.accuracy ∧
      inRange 0.4 0.7
        (generate_weapon_effectiveness ⟨halfStream, 0⟩).fst.tanks.kill_probability ∧
      inRange 30 60
        (generate_weapon_effectiveness ⟨halfStream, 0⟩).fst.tanks.operational_range_km ∧
      inRange 0.5 0.75 (generate_weapon_effectiveness ⟨halfStream, 0⟩).fst.artillery.accuracy ∧
      inRange 0.3 0.6
        (generate_weapon_effectiveness ⟨halfStream, 0⟩).fst.artillery.kill_probability ∧
      inRange 20 50
        (generate_weapon_effectiveness ⟨halfStream, 0⟩).fst.artillery.operational_range_km ∧
      inRange 0.7 0.9
        (generate_weapon_effectiveness ⟨halfStream, 0⟩).fst.fighter_jets.accuracy ∧
      inRange 0.5 0.8
        (generate_weapon_effectiveness ⟨halfStream, 0⟩).fst.fighter_jets.kill_probability ∧
      inRange 1500 3000
        (generate_weapon_effectiveness ⟨halfStream, 0⟩).fst.fighter_jets.operational_range_km ∧
      inRange 0.4 0.7
        (generate_weapon_effectiveness
          ⟨halfStream, 0⟩).fst.cyber_attacks.infrastructure_disruption_probability ∧
      inRange 0.3 0.6
        (generate_weapon_effectiveness
          ⟨halfStream, 0⟩).fst.cyber_attacks.communication_system_compromise ∧
      inRange 0.2 0.5
        (generate_weapon_effectiveness
          ⟨halfStream, 0⟩).fst.cyber_attacks.military_network_penetration ∧
      inRange 0.4 0.7
        (generate_weapon_effectiveness
          ⟨halfStream, 0⟩).fst.special_forces.mission_success_probability ∧
      inRange 0.3 0.6
        (generate_weapon_effectiveness
          ⟨halfStream, 0⟩).fst.special_forces.strategic_target_elimination) := by
  have hu : UnitStream halfStream := by
    intro n
    constructor <;> norm_num [halfStream]
  exact ⟨hu, claim_C4 halfStream 0 hu⟩

end MoreClaims

section MoreClaims2

/-- Claim C7 (corrected), counterexample to the original statement: the
all-quarters run produces a record whose `conflict_duration_days` is
`135/2`, not an integer value — the field is drawn by a uniform-real
sample over `[30, 180]`, not an integer draw. -/
theorem claim_C7_counterexample :
    quarterRecord ∈ (generate_conflict_scenarios ⟨quarterStream, 0⟩ 1).fst ∧
    quarterRecord.conflict_duration_days = 135/2 ∧
    ¬ ∃ k : ℤ, quarterRecord.conflict_duration_days = (k : ℚ) := by
  have hq : quarterRecord.conflict_duration_days = 135/2 := by
    rw [show quarterRecord = (generate_scenario quarterWE ⟨quarterStream, 24⟩).fst from rfl,
      generate_scenario_fst_eval]
    norm_num [quarterStream]
  refine ⟨?_, hq, ?_⟩
  · show quarterRecord ∈ [quarterRecord]
    exact List.mem_singleton.mpr rfl
  · rintro ⟨k, hk⟩
    rw [hq] at hk
    have h2 : (135 : ℚ) = 2 * (k : ℚ) := by
      rw [eq_comm] at hk
      field_simp at hk
      linarith
    have h3 : (135 : ℤ) = 2 * k := by exact_mod_cast h2
    omega

/-- Claim C7 (amended): for every unit-draw stream, every generated
record's `conflict_duration_days` is a real value in the closed interval
`[30, 180]` (not necessarily integer-valued) and its
`economic_damage_billion_usd` lies in `[50, 500]`. -/
theorem claim_C7 (f : ℕ → ℚ) (i : ℕ) (n : ℤ) (r : ScenarioRecord)
    (hu : UnitStream f)
    (hr : r ∈ (generate_conflict_scenarios ⟨f, i⟩ n).fst) :
    inRange 30 180 r.conflict_duration_days ∧
    inRange 50 500 r.economic_damage_billion_usd := by
  obtain ⟨j, e⟩ := mem_generate_conflict_scenarios f i n r hr
  subst e
  constructor
  · show inRange 30 180 (30 + f (j+4) * (180 - 30))
    exact affine_mem (hu (j+4)).1 (hu (j+4)).2 (by norm_num)
  · show inRange 50 500 (50 + f (j+8) * (500 - 50))
    exact affine_mem (hu (j+8)).1 (hu (j+8)).2 (by norm_num)

/-- Witness for C7 on the single record of the all-halves run. -/
theorem claim_C7_witness :
    UnitStream halfStream ∧
    sampleRecord ∈ (generate_conflict_scenarios ⟨halfStream, 0⟩ 1).fst ∧
    inRange 30 180 sampleRecord.conflict_duration_days ∧
    inRange 50 500 sampleRecord.economic_damage_billion_usd := by
  have hu : UnitStream halfStream := by
    intro n
    constructor <;> norm_num [halfStream]
  have hm : sampleRecord ∈ (generate_conflict_scenarios ⟨halfStream, 0⟩ 1).fst := by
    show sampleRecord ∈ [sampleRecord]
    exact List.mem_singleton.mpr rfl
  exact ⟨hu, hm, claim_C7 halfStream 0 1 sampleRecord hu hm⟩

/-- Claim C9: every generated record's `initial_aggressor` is exactly one
of the strings `Nation_A` or `Nation_B`, for every stream. -/
theorem claim_C9 (f : ℕ → ℚ) (i : ℕ) (n : ℤ) (r : ScenarioRecord)
    (hr : r ∈ (generate_conflict_scenarios ⟨f, i⟩ n).fst) :
    r.initial_aggressor = "Nation_A" ∨ r.initial_aggressor = "Nation_B" := by
  obtain ⟨j, e⟩ := mem_generate_conflict_scenarios f i n r hr
  subst e
  exact choice_pair_cases ⟨f, j+3⟩

/-- Witness for C9 on the single record of the all-halves run. -/
theorem claim_C9_witness :
    sampleRecord ∈ (generate_conflict_scenarios ⟨halfStream, 0⟩ 1).fst ∧
    (sampleRecord.initial_aggressor = "Nation_A" ∨
      sampleRecord.initial_aggressor = "Nation_B") := by
  have hm : sampleRecord ∈ (generate_conflict_scenarios ⟨halfStream, 0⟩ 1).fst := by
    show sampleRecord ∈ [sampleRecord]
    exact List.mem_singleton.mpr rfl
  exact ⟨hm, claim_C9 halfStream 0 1 sampleRecord hm⟩

/-- Claim C10 (corrected), counterexample to the original statement: a
generated record carries 17 named fields, not 16. -/
theorem claim_C10_counterexample :
    ((generate_conflict_scenarios ⟨halfStream, 0⟩ 1).fst.map
      (fun r => (ScenarioRecord.toDict r).length)) = [17] ∧ (17 : ℕ) ≠ 16 :=
  ⟨rfl, by norm_num⟩

/-- Claim C10 (amended): every generated record has exactly the fixed
17-field schema of the source dict literal — the same named keys, in the
same order, with no duplicates, hence no missing or extra fields. -/
theorem claim_C10 (s : RandState) (n : ℤ) (r : ScenarioRecord)
    (_hr : r ∈ (generate_conflict_scenarios s n).fst) :
    (ScenarioRecord.toDict r).map Prod.fst = scenarioFieldNames ∧
    (ScenarioRecord.toDict r).length = 17 ∧
    scenarioFieldNames.Nodup :=
  ⟨rfl, rfl, by decide⟩

/-- Witness for C10 on the single record of the all-halves run. -/
theorem claim_C10_witness :
    sampleRecord ∈ (generate_conflict_scenarios ⟨halfStream, 0⟩ 1).fst ∧
    ((ScenarioRecord.toDict sampleRecord).map Prod.fst = scenarioFieldNames ∧
      (ScenarioRecord.toDict sampleRecord).length = 17 ∧
      scenarioFieldNames.Nodup) := by
  have hm : sampleRecord ∈ (generate_conflict_scenarios ⟨halfStream, 0⟩ 1).fst := by
    show sampleRecord ∈ [sampleRecord]
    exact List.mem_singleton.mpr rfl
  exact ⟨hm, claim_C10 ⟨halfStream, 0⟩ 1 sampleRecord hm⟩

end MoreClaims2

section LastClaims

/-- The capability generator reads the ten draws `f i, …, f (i+9)`. -/
theorem gnc_fst_eval (f : ℕ → ℚ) (i : ℕ) :
    (generate_national_capabilities ⟨f, i⟩).fst =
      ⟨⟨500000 + ⌊f i * ((1200000 - 500000 : ℤ) : ℚ)⌋,
        50 + f (i+1) * (250 - 50), 0.6 + f (i+2) * (0.9 - 0.6),
        0.4 + f (i+3) * (0.8 - 0.4), 0.5 + f (i+4) * (0.9 - 0.5)⟩,
       ⟨400000 + ⌊f (i+5) * ((1000000 - 400000 : ℤ) : ℚ)⌋,
        40 + f (i+6) * (200 - 40), 0.5 + f (i+7) * (0.85 - 0.5),
        0.3 + f (i+8) * (0.7 - 0.3), 0.4 + f (i+9) * (0.8 - 0.4)⟩⟩ := rfl

/-- Claim C5: the pipeline (seeding followed by generation) is a pure
function of the seed and the count — equal seeds give equal tables — and
the concrete distinct seeds 0 and 1 produce different tables. -/
theorem claim_C5 :
    (∀ (s1 s2 : ℕ) (n : ℤ), s1 = s2 → runSimulation s1 n = runSimulation s2 n) ∧
    runSimulation 0 1 ≠ runSimulation 1 1 := by
  constructor
  · intro s1 s2 n h
    rw [h]
  · have key : ∀ seed : ℕ,
        (runSimulation seed 1).map ScenarioRecord.cyber_conflict_probability =
          [0.2 + seedStream seed 24 * (0.5 - 0.2)] := fun _ => rfl
    intro h
    have h2 := congrArg (List.map ScenarioRecord.cyber_conflict_probability) h
    rw [key 0, key 1] at h2
    simp only [List.cons.injEq, and_true] at h2
    have h3 : seedStream 0 24 = seedStream 1 24 := by
      have hc : seedStream 0 24 * (0.5 - 0.2) = seedStream 1 24 * (0.5 - 0.2) := by
        linarith
      exact mul_right_cancel₀ (by norm_num) hc
    have h4 : ((lcg^[24+1] (0 % 4294967296) : ℕ) : ℚ) / 4294967296 =
        ((lcg^[24+1] (1 % 4294967296) : ℕ) : ℚ) / 4294967296 := h3
    rw [div_eq_div_iff (by norm_num) (by norm_num)] at h4
    have h5 : ((lcg^[24+1] (0 % 4294967296) : ℕ) : ℚ) =
        ((lcg^[24+1] (1 % 4294967296) : ℕ) : ℚ) :=
      mul_right_cancel₀ (by norm_num) h4
    have h6 : lcg^[24+1] (0 % 4294967296) = lcg^[24+1] (1 % 4294967296) := by
      exact_mod_cast h5
    have h7 : lcg^[24+1] (0 % 4294967296) ≠ lcg^[24+1] (1 % 4294967296) := by decide
    exact h7 h6

/-- Witness for C5: same-seed determinism applied at seed 0, count 1. -/
theorem claim_C5_witness :
    (0 : ℕ) = 0 ∧ runSimulation 0 1 = runSimulation 0 1 :=
  ⟨rfl, claim_C5.1 0 0 1 rfl⟩

/-- Claim C6: the generated table does not depend on the national
capability profile.  The capability generator consumes exactly the unit
draws 14–23 of a run started at index 0 (after the fourteen weapon draws,
before the per-record draws); two runs whose streams agree outside that
block — so the weapon snapshot and all per-record draws coincide while
the capability values may differ arbitrarily — produce equal tables. -/
theorem claim_C6 (f g : ℕ → ℚ) (n : ℤ)
    (hlow : ∀ i, i < 14 → f i = g i) (hhigh : ∀ i, 24 ≤ i → f i = g i) :
    (generate_conflict_scenarios ⟨f, 0⟩ n).fst =
      (generate_conflict_scenarios ⟨g, 0⟩ n).fst := by
  show (genRecords (generate_weapon_effectiveness ⟨f, 0⟩).fst ⟨f, 24⟩ n.toNat).fst =
    (genRecords (generate_weapon_effectiveness ⟨g, 0⟩).fst ⟨g, 24⟩ n.toNat).fst
  rw [gwe_fst_congr f g 0 (fun k hk => by simpa using hlow k hk)]
  exact genRecords_fst_congr _ f g _ 24 (fun i hi => hhigh i hi)

/-- Witness for C6: the all-halves stream against a stream that differs
exactly on the capability draws; the capability budgets differ while the
tables coincide. -/
theorem claim_C6_witness :
    (∀ i, i < 14 → halfStream i = streamG i) ∧
    (∀ i, 24 ≤ i → halfStream i = streamG i) ∧
    (generate_conflict_scenarios ⟨halfStream, 0⟩ 1).fst =
      (generate_conflict_scenarios ⟨streamG, 0⟩ 1).fst ∧
    (generate_national_capabilities
        (generate_weapon_effectiveness
          ⟨halfStream, 0⟩).snd).fst.Nation_A.military_budget_billion_usd ≠
      (generate_national_capabilities
        (generate_weapon_effectiveness
          ⟨streamG, 0⟩).snd).fst.Nation_A.military_budget_billion_usd := by
  have hlow : ∀ i, i < 14 → halfStream i = streamG i := by
    intro i hi
    simp only [halfStream, streamG]
    rw [if_neg (by omega)]
  have hhigh : ∀ i, 24 ≤ i → halfStream i = streamG i := by
    intro i hi
    simp only [halfStream, streamG]
    rw [if_neg (by omega)]
  refine ⟨hlow, hhigh, claim_C6 halfStream streamG 1 hlow hhigh, ?_⟩
  show (generate_national_capabilities
      ⟨halfStream, 14⟩).fst.Nation_A.military_budget_billion_usd ≠
    (generate_national_capabilities ⟨streamG, 14⟩).fst.Nation_A.military_budget_billion_usd
  rw [gnc_fst_eval, gnc_fst_eval]
  norm_num [halfStream, streamG]

/-- Claim C8: the Randomness Source draw operations fail with
`InvalidRange` exactly when `lo > hi`, and for `lo ≤ hi` they return a
drawn value without failing. -/
theorem claim_C8 :
    (∀ (lo hi : ℚ) (s : RandState),
      (hi < lo → uniformReal lo hi s = .error .InvalidRange) ∧
      (lo ≤ hi → uniformReal lo hi s = .ok (uniform lo hi s))) ∧
    (∀ (lo hi : ℤ) (s : RandState),
      (hi < lo → uniformInt lo hi s = .error .InvalidRange) ∧
      (lo ≤ hi → uniformInt lo hi s = .ok (randint lo hi s))) := by
  constructor
  · intro lo hi s
    constructor
    · intro h
      unfold uniformReal
      rw [if_pos h]
    · intro h
      unfold uniformReal
      rw [if_neg (not_lt.mpr h)]
  · intro lo hi s
    constructor
    · intro h
      unfold uniformInt
      rw [if_pos h]
    · intro h
      unfold uniformInt
      rw [if_neg (not_lt.mpr h)]

/-- Witness for C8 at the concrete bound pairs `(1, 0)` and `(0, 1)`. -/
theorem claim_C8_witness :
    ((0:ℚ) < 1 ∧ uniformReal 1 0 ⟨halfStream, 0⟩ = .error .InvalidRange) ∧
    ((0:ℚ) ≤ 1 ∧ uniformReal 0 1 ⟨halfStream, 0⟩ = .ok (uniform 0 1 ⟨halfStream, 0⟩)) ∧
    ((0:ℤ) < 1 ∧ uniformInt 1 0 ⟨halfStream, 0⟩ = .error .InvalidRange) ∧
    ((0:ℤ) ≤ 1 ∧ uniformInt 0 1 ⟨halfStream, 0⟩ = .ok (randint 0 1 ⟨halfStream, 0⟩)) :=
  ⟨⟨by norm_num, (claim_C8.1 1 0 ⟨halfStream, 0⟩).1 (by norm_num)⟩,
   ⟨by norm_num, (claim_C8.1 0 1 ⟨halfStream, 0⟩).2 (by norm_num)⟩,
   ⟨by norm_num, (claim_C8.2 1 0 ⟨halfStream, 0⟩).1 (by norm_num)⟩,
   ⟨by norm_num, (claim_C8.2 0 1 ⟨halfStream, 0⟩).2 (by norm_num)⟩⟩

end LastClaims
